import Mathlib

/-!
Verification of the KVDB benchmark harness (`src/benchmark.py`).

The script is embedded shallowly:
* byte strings are `List Char` (`Str`), so "byte for byte" identity is list
  equality;
* the pseudo-random float32 components produced by `np.random.randn` and
  rendered by Python's `str` are modelled abstractly by sampling oracles
  `ℕ → ℕ → Str` giving, for each vector index and component index, the
  rendered decimal form of the sampled component;
* wall-clock durations measured with `time.time()` are oracle inputs,
  modelled as rationals;
* the two `subprocess` child invocations and the pre-flight check are
  modelled by an `Env` record carrying each child's exit status and captured
  standard-error text, and `runMain` mirrors the control flow of `main`.
-/

namespace KVDB

/-- A byte string of the textual protocol, as a list of characters. -/
abbrev Str := List Char

/-- Configuration constant `NUM_VECTORS = 100000` (benchmark.py line 18). -/
def NUM_VECTORS : ℕ := 100000

/-- Configuration constant `DIMENSION = 786` (benchmark.py line 19). -/
def DIMENSION : ℕ := 786

/-- `generate_random_vector(dim)` (benchmark.py lines 22-24): returns a vector
of `dim` components.  The draw from the standard normal distribution and the
cast to `float32` are modelled by the sampling oracle `sample`, which yields
the rendered decimal form of each component. -/
def generate_random_vector (dim : ℕ) (sample : ℕ → Str) : List Str :=
  (List.range dim).map sample

/-- `format_vector(vec)` (benchmark.py lines 26-28): `' '.join(map(str, vec))`,
with components already in rendered form. -/
def format_vector (vec : List Str) : Str :=
  [' '].intercalate vec

/-- The character for decimal digit `d` (`'0'` for 0, ..., `'9'` for 9). -/
def digitChar (d : ℕ) : Char := Char.ofNat (48 + d)

/-- Fuel-indexed accumulator loop rendering `n` in decimal, most significant
digit first; models Python's decimal rendering of a nonnegative `int`. -/
def decRepAux : ℕ → ℕ → List Char → List Char
  | 0, _, acc => acc
  | _ + 1, 0, acc => acc
  | fuel + 1, m + 1, acc =>
      decRepAux fuel ((m + 1) / 10) (digitChar ((m + 1) % 10) :: acc)

/-- Decimal rendering of a natural number, as produced by Python's f-string
interpolation of an `int` (e.g. `f"vec_{i}"`). -/
def decRep (n : ℕ) : Str :=
  if n = 0 then ['0'] else decRepAux n n []

/-- The key attached to the `i`-th vector: `f"vec_{i}"` (benchmark.py
line 51). -/
def vecKey (i : ℕ) : Str :=
  "vec_".data ++ decRep i

/-- The list `vectors` built in `main` (benchmark.py lines 48-52): `N` pairs
`(f"vec_{i}", generate_random_vector(D))`. -/
def mkVectors (N D : ℕ) (sample : ℕ → ℕ → Str) : List (Str × List Str) :=
  (List.range N).map fun i => (vecKey i, generate_random_vector D (sample i))

/-- The encoded insert command `f"insert {vec_id} {format_vector(vec)}\n"`
(benchmark.py lines 59 and 91). -/
def insertLine (p : Str × List Str) : Str :=
  "insert ".data ++ p.1 ++ [' '] ++ format_vector p.2 ++ ['\n']

/-- The encoded search command `f"search {format_vector(query_vec)} --k_top 10\n"`
(benchmark.py line 94). -/
def searchLine (q : List Str) : Str :=
  "search ".data ++ format_vector q ++ " --k_top 10\n".data

/-- The encoded exit command `"exit\n"` (benchmark.py lines 61 and 96). -/
def exitLine : Str := "exit\n".data

/-- The phase-1 workload `insert_commands` (benchmark.py lines 57-61): one
insert line per vector, then `exit`. -/
def phase1Commands (vectors : List (Str × List Str)) : List Str :=
  vectors.map insertLine ++ [exitLine]

/-- The list `query_vectors` built in `main` (benchmark.py line 86): exactly
100 fresh random vectors. -/
def mkQueries (D : ℕ) (qsample : ℕ → ℕ → Str) : List (List Str) :=
  (List.range 100).map fun j => generate_random_vector D (qsample j)

/-- The phase-2 workload `all_commands` (benchmark.py lines 88-96): the same
insert lines, then one search line per query vector, then `exit`. -/
def phase2Commands (vectors : List (Str × List Str)) (queries : List (List Str)) :
    List Str :=
  vectors.map insertLine ++ queries.map searchLine ++ [exitLine]

/-- Outcomes of the external interactions of one run: whether the pre-flight
`[BINARY_PATH, "count"]` invocation succeeds (it fails both when the binary is
missing, `FileNotFoundError`, and when it exits non-zero, `CalledProcessError`),
each phase child's exit status and captured standard error, and the two
measured wall-clock durations. -/
structure Env where
  preflight_ok : Bool
  ret1 : Int
  stderr1 : Str
  insert_time : ℚ
  ret2 : Int
  stderr2 : Str
  total_time : ℚ

/-- The figures printed in the final benchmark summary (benchmark.py
lines 124-142), one field per reported quantity. -/
structure Summary where
  db_size : ℕ
  dimension : ℕ
  insert_total : ℚ
  insert_throughput : ℚ
  insert_avg_ms : ℚ
  search_total : ℚ
  search_avg_ms : ℚ
  search_throughput : ℚ
  total_benchmark_time : ℚ
deriving DecidableEq

/-- Observable outcome of `main`: the process exit status, whether the
build-the-project hint was printed, which Driver invocations were performed
and with which input stream, which captured standard-error text was printed,
and the final summary if one was produced. -/
structure MainResult where
  exitCode : ℕ
  printed_build_hint : Bool
  phase1_input : Option (List Str)
  phase2_input : Option (List Str)
  printed_stderr : Option Str
  summary : Option Summary
deriving DecidableEq

/-- Shallow embedding of `main` (benchmark.py lines 30-142).  Mirrors the
control flow: pre-flight check (lines 38-44), phase 1 with its exit-status
check (lines 55-77), phase 2 with its exit-status check (lines 83-113),
derived metrics (lines 115-117) and the summary (lines 124-142). -/
def runMain (N D : ℕ) (sample qsample : ℕ → ℕ → Str) (env : Env) : MainResult :=
  if env.preflight_ok = false then
    { exitCode := 1
      printed_build_hint := true
      phase1_input := none
      phase2_input := none
      printed_stderr := none
      summary := none }
  else
    let vectors := mkVectors N D sample
    let insert_commands := phase1Commands vectors
    if env.ret1 ≠ 0 then
      { exitCode := 1
        printed_build_hint := false
        phase1_input := some insert_commands
        phase2_input := none
        printed_stderr := some env.stderr1
        summary := none }
    else
      let all_commands := phase2Commands vectors (mkQueries D qsample)
      if env.ret2 ≠ 0 then
        { exitCode := 1
          printed_build_hint := false
          phase1_input := some insert_commands
          phase2_input := some all_commands
          printed_stderr := some env.stderr2
          summary := none }
      else
        let search_time := env.total_time - env.insert_time
        let avg_search_time := search_time / 100
        { exitCode := 0
          printed_build_hint := false
          phase1_input := some insert_commands
          phase2_input := some all_commands
          printed_stderr := none
          summary := some
            { db_size := N
              dimension := D
              insert_total := env.insert_time
              insert_throughput := (N : ℚ) / env.insert_time
              insert_avg_ms := env.insert_time / (N : ℚ) * 1000
              search_total := search_time
              search_avg_ms := avg_search_time * 1000
              search_throughput := 100 / search_time
              total_benchmark_time := env.total_time } }

/-- A reference space-separated parser for encoded `insert` lines: strip the
trailing newline, split on single spaces, expect the literal command word
`insert`, a key token and at least one component token. -/
def parse_insert (line : Str) : Option (Str × List Str) :=
  let body := if line.getLast? = some '\n' then line.dropLast else line
  match body.splitOn ' ' with
  | cmd :: key :: c :: cs =>
      if cmd = "insert".data then some (key, c :: cs) else none
  | _ => none

theorem mem_decRepAux (fuel : ℕ) : ∀ (n : ℕ) (acc : List Char) (c : Char),
    c ∈ decRepAux fuel n acc → c ∈ acc ∨ ∃ d, d < 10 ∧ c = digitChar d := by
  induction fuel with
  | zero => exact fun n acc c h => Or.inl h
  | succ fuel ih =>
    intro n acc c h
    cases n with
    | zero => exact Or.inl h
    | succ m =>
      simp only [decRepAux] at h
      rcases ih _ _ _ h with h' | h'
      · rcases List.mem_cons.mp h' with rfl | h''
        · exact Or.inr ⟨(m + 1) % 10, Nat.mod_lt _ (by norm_num), rfl⟩
        · exact Or.inl h''
      · exact Or.inr h'

theorem mem_decRep_digit {i : ℕ} {c : Char} (hc : c ∈ decRep i) :
    ∃ d, d < 10 ∧ c = digitChar d := by
  unfold decRep at hc
  split at hc
  · have : c = '0' := List.mem_singleton.mp hc
    exact ⟨0, by norm_num, by rw [this]; decide⟩
  · rcases mem_decRepAux _ _ _ _ hc with h | h
    · exact absurd h (List.not_mem_nil c)
    · exact h

theorem digitChar_not_whitespace {d : ℕ} (hd : d < 10) :
    ¬ (digitChar d).isWhitespace := by
  interval_cases d <;> decide

theorem vecKey_no_whitespace (i : ℕ) : ∀ c ∈ vecKey i, ¬ c.isWhitespace := by
  intro c hc
  rcases List.mem_append.mp hc with h | h
  · rw [show ("vec_".data : List Char) = ['v', 'e', 'c', '_'] from rfl] at h
    fin_cases h <;> decide
  · obtain ⟨d, hd, rfl⟩ := mem_decRep_digit h
    exact digitChar_not_whitespace hd

/-- C1: for every pair of phase results obtained in a successful run, the
orchestrator derives `search_time = total_time - insert_time` and
`avg_search_time = search_time / 100` (reported in milliseconds as
`avg_search_time * 1000`). -/
theorem orchestrator_derived_metrics (N D : ℕ) (sample qsample : ℕ → ℕ → Str)
    (env : Env) (hp : env.preflight_ok = true) (h1 : env.ret1 = 0)
    (h2 : env.ret2 = 0) :
    ∃ s : Summary, (runMain N D sample qsample env).summary = some s ∧
      s.search_total = env.total_time - env.insert_time ∧
      s.search_avg_ms = (env.total_time - env.insert_time) / 100 * 1000 := by
  unfold runMain
  rw [hp, h1, h2]
  exact ⟨_, rfl, rfl, rfl⟩

/-- Concrete environment for the stub run of claim C1: `insert_time = 2.0 s`,
`total_time = 5.0 s`, both phases succeed. -/
def envC1 : Env :=
  { preflight_ok := true, ret1 := 0, stderr1 := [], insert_time := 2,
    ret2 := 0, stderr2 := [], total_time := 5 }

/-- Witness for C1: with `insert_time = 2.0 s` and `total_time = 5.0 s` the
summary reports `search_time = 3.0 s` and `avg_search_time = 30 ms`. -/
theorem orchestrator_derived_metrics_witness :
    ∃ s : Summary,
      (runMain 3 2 (fun _ _ => []) (fun _ _ => []) envC1).summary = some s ∧
      s.search_total = 3 ∧ s.search_avg_ms = 30 := by
  obtain ⟨s, hs, h1, h2⟩ :=
    orchestrator_derived_metrics 3 2 (fun _ _ => []) (fun _ _ => []) envC1 rfl rfl rfl
  refine ⟨s, hs, ?_, ?_⟩
  · rw [h1]; norm_num [envC1]
  · rw [h2]; norm_num [envC1]

/-- C3: when the pre-flight `count` invocation fails, `main` exits with a
non-zero status, prints the build hint, and performs neither the phase-1 nor
the phase-2 Driver invocation. -/
theorem preflight_failure_halts (N D : ℕ) (sample qsample : ℕ → ℕ → Str)
    (env : Env) (hp : env.preflight_ok = false) :
    (runMain N D sample qsample env).exitCode ≠ 0 ∧
    (runMain N D sample qsample env).printed_build_hint = true ∧
    (runMain N D sample qsample env).phase1_input = none ∧
    (runMain N D sample qsample env).phase2_input = none := by
  unfold runMain
  rw [hp]
  simp

/-- Concrete environment for claim C3: the pre-flight check fails. -/
def envC3 : Env :=
  { preflight_ok := false, ret1 := 0, stderr1 := [], insert_time := 1,
    ret2 := 0, stderr2 := [], total_time := 2 }

/-- Witness for C3 at a concrete failing environment. -/
theorem preflight_failure_halts_witness :
    (runMain 3 2 (fun _ _ => []) (fun _ _ => []) envC3).exitCode ≠ 0 ∧
    (runMain 3 2 (fun _ _ => []) (fun _ _ => []) envC3).printed_build_hint = true ∧
    (runMain 3 2 (fun _ _ => []) (fun _ _ => []) envC3).phase1_input = none ∧
    (runMain 3 2 (fun _ _ => []) (fun _ _ => []) envC3).phase2_input = none :=
  preflight_failure_halts 3 2 (fun _ _ => []) (fun _ _ => []) envC3 rfl

/-- C4: a phase child exiting non-zero makes `main` print that phase's
captured standard error, exit non-zero, run no further phase, and produce no
summary; the run's exit status is 0 exactly when both phase children exit
with status 0. -/
theorem phase_failure_halts (N D : ℕ) (sample qsample : ℕ → ℕ → Str)
    (env : Env) (hp : env.preflight_ok = true) :
    (env.ret1 ≠ 0 →
      (runMain N D sample qsample env).exitCode ≠ 0 ∧
      (runMain N D sample qsample env).printed_stderr = some env.stderr1 ∧
      (runMain N D sample qsample env).phase2_input = none ∧
      (runMain N D sample qsample env).summary = none) ∧
    (env.ret1 = 0 → env.ret2 ≠ 0 →
      (runMain N D sample qsample env).exitCode ≠ 0 ∧
      (runMain N D sample qsample env).printed_stderr = some env.stderr2 ∧
      (runMain N D sample qsample env).summary = none) ∧
    ((runMain N D sample qsample env).exitCode = 0 ↔
      env.ret1 = 0 ∧ env.ret2 = 0) := by
  unfold runMain
  rw [hp]
  by_cases h1 : env.ret1 = 0 <;> by_cases h2 : env.ret2 = 0 <;>
    simp [h1, h2]

/-- Concrete environment for claim C4: phase 1 exits with status 1. -/
def envC4 : Env :=
  { preflight_ok := true, ret1 := 1, stderr1 := "boom".data, insert_time := 1,
    ret2 := 0, stderr2 := [], total_time := 2 }

/-- Witness for C4 at a concrete environment whose phase-1 child fails. -/
theorem phase_failure_halts_witness :
    (runMain 3 2 (fun _ _ => []) (fun _ _ => []) envC4).exitCode ≠ 0 ∧
    (runMain 3 2 (fun _ _ => []) (fun _ _ => []) envC4).printed_stderr
        = some envC4.stderr1 ∧
    (runMain 3 2 (fun _ _ => []) (fun _ _ => []) envC4).phase2_input = none ∧
    (runMain 3 2 (fun _ _ => []) (fun _ _ => []) envC4).summary = none :=
  (phase_failure_halts 3 2 (fun _ _ => []) (fun _ _ => []) envC4 rfl).1
    (by decide)

/-- Concrete environment for claim C5: `insert_time = 2`, `total_time = 5`,
both phases succeed. -/
def envC5 : Env :=
  { preflight_ok := true, ret1 := 0, stderr1 := [], insert_time := 2,
    ret2 := 0, stderr2 := [], total_time := 5 }

/-- C5 counterexample: in a successful run with `insert_time = 2 s` and
`total_time = 5 s`, the summary's "Total benchmark time" figure is 5 s (the
phase-2 wall time alone), not the sum 7 s of both phases' wall times. -/
theorem report_total_not_sum :
    ((runMain 3 2 (fun _ _ => []) (fun _ _ => []) envC5).summary.map
        Summary.total_benchmark_time) = some 5 ∧
    (5 : ℚ) ≠ envC5.insert_time + envC5.total_time := by
  constructor
  · decide
  · norm_num [envC5]

/-- C5 amended: the summary's "Total benchmark time" figure equals the
phase-2 elapsed wall time `total_time` alone. -/
theorem report_total_is_phase2_time (N D : ℕ) (sample qsample : ℕ → ℕ → Str)
    (env : Env) (hp : env.preflight_ok = true) (h1 : env.ret1 = 0)
    (h2 : env.ret2 = 0) :
    ∃ s : Summary, (runMain N D sample qsample env).summary = some s ∧
      s.total_benchmark_time = env.total_time := by
  unfold runMain
  rw [hp, h1, h2]
  exact ⟨_, rfl, rfl⟩

/-- Witness for the amended C5 at the concrete environment of the
counterexample. -/
theorem report_total_is_phase2_time_witness :
    ∃ s : Summary,
      (runMain 3 2 (fun _ _ => []) (fun _ _ => []) envC5).summary = some s ∧
      s.total_benchmark_time = envC5.total_time :=
  report_total_is_phase2_time 3 2 (fun _ _ => []) (fun _ _ => []) envC5 rfl rfl rfl

/-- C8: encoding is deterministic: the encoders are pure functions, so
encoding the same `(key, vector)` pair (or the same query vector) twice
yields byte-identical command lines. -/
theorem encoding_deterministic (key : Str) (vec : List Str) (q : List Str) :
    insertLine (key, vec) = insertLine (key, vec) ∧
    searchLine q = searchLine q :=
  ⟨rfl, rfl⟩

/-- C2: for a run with `N` vectors and `Q` query vectors, the phase-2 stream
begins with the same `N` insert lines, byte for byte, as the phase-1 stream,
followed by exactly `Q` search lines, followed by one `exit` line, with no
extra or missing lines. -/
theorem phase2_stream_structure (N Q : ℕ) (vectors : List (Str × List Str))
    (queries : List (List Str)) (hN : vectors.length = N)
    (hQ : queries.length = Q) :
    (phase2Commands vectors queries).take N = (phase1Commands vectors).take N ∧
    ((phase2Commands vectors queries).drop N).take Q = queries.map searchLine ∧
    (phase2Commands vectors queries).drop (N + Q) = [exitLine] ∧
    (phase2Commands vectors queries).length = N + Q + 1 := by
  have hN' : (vectors.map insertLine).length = N := by simp [hN]
  have hQ' : (queries.map searchLine).length = Q := by simp [hQ]
  refine ⟨?_, ?_, ?_, ?_⟩
  · unfold phase2Commands phase1Commands
    rw [List.append_assoc, List.take_left' hN', List.take_left' hN']
  · unfold phase2Commands
    rw [List.append_assoc, List.drop_left' hN', List.take_left' hQ']
  · unfold phase2Commands
    rw [List.drop_left' (by simp [hN, hQ])]
  · simp [phase2Commands, hN, hQ]
    omega

/-- Witness for C2 at a one-vector, one-query workload. -/
theorem phase2_stream_structure_witness :
    (phase2Commands [(vecKey 0, [['1']])] [[['2']]]).take 1
        = (phase1Commands [(vecKey 0, [['1']])]).take 1 ∧
    ((phase2Commands [(vecKey 0, [['1']])] [[['2']]]).drop 1).take 1
        = [[['2']]].map searchLine ∧
    (phase2Commands [(vecKey 0, [['1']])] [[['2']]]).drop (1 + 1) = [exitLine] ∧
    (phase2Commands [(vecKey 0, [['1']])] [[['2']]]).length = 1 + 1 + 1 :=
  phase2_stream_structure 1 1 [(vecKey 0, [['1']])] [[['2']]] rfl rfl

/-- C6: for every configured dimension `D > 0` and count `N > 0`, the vector
generation loop produces `N` vectors each of exactly length `D`. -/
theorem generator_dimensions (N D : ℕ) (_hN : 0 < N) (_hD : 0 < D)
    (sample : ℕ → ℕ → Str) :
    (mkVectors N D sample).length = N ∧
    ∀ p ∈ mkVectors N D sample, p.2.length = D := by
  refine ⟨by simp [mkVectors], ?_⟩
  intro p hp
  simp only [mkVectors, List.mem_map, List.mem_range] at hp
  obtain ⟨i, _, rfl⟩ := hp
  simp [generate_random_vector]

/-- Witness for C6 at `N = 2`, `D = 3`. -/
theorem generator_dimensions_witness :
    (mkVectors 2 3 (fun _ _ => ['0'])).length = 2 ∧
    ∀ p ∈ mkVectors 2 3 (fun _ _ => ['0']), p.2.length = 3 :=
  generator_dimensions 2 3 (by decide) (by decide) (fun _ _ => ['0'])

/-- C9: for `i < N`, the `i`-th insert command of each phase carries the key
`vec_i` (the literal prefix `vec_` followed by the decimal rendering of `i`),
and every character of that key is non-whitespace. -/
theorem insert_keys_indexed (N D i : ℕ) (sample qsample : ℕ → ℕ → Str)
    (hi : i < N) :
    (phase1Commands (mkVectors N D sample))[i]? =
      some (insertLine ("vec_".data ++ decRep i,
        generate_random_vector D (sample i))) ∧
    (phase2Commands (mkVectors N D sample) (mkQueries D qsample))[i]? =
      some (insertLine ("vec_".data ++ decRep i,
        generate_random_vector D (sample i))) ∧
    ∀ c ∈ ("vec_".data ++ decRep i : Str), ¬ c.isWhitespace := by
  have hlen : ((mkVectors N D sample).map insertLine).length = N := by
    simp [mkVectors]
  have hmk : ((mkVectors N D sample).map insertLine)[i]? =
      some (insertLine (vecKey i, generate_random_vector D (sample i))) := by
    rw [List.getElem?_map]
    simp [mkVectors, List.getElem?_range, hi]
  refine ⟨?_, ?_, vecKey_no_whitespace i⟩
  · unfold phase1Commands
    rw [List.getElem?_append_left (by rw [hlen]; exact hi), hmk]
    rfl
  · unfold phase2Commands
    rw [List.append_assoc,
      List.getElem?_append_left (by rw [hlen]; exact hi), hmk]
    rfl

/-- Witness for C9 at `N = D = 2`, `i = 1`. -/
theorem insert_keys_indexed_witness :
    (phase1Commands (mkVectors 2 2 (fun _ _ => ['0'])))[1]? =
      some (insertLine ("vec_".data ++ decRep 1,
        generate_random_vector 2 ((fun _ _ => ['0']) 1))) ∧
    (phase2Commands (mkVectors 2 2 (fun _ _ => ['0']))
        (mkQueries 2 (fun _ _ => ['0'])))[1]? =
      some (insertLine ("vec_".data ++ decRep 1,
        generate_random_vector 2 ((fun _ _ => ['0']) 1))) ∧
    ∀ c ∈ ("vec_".data ++ decRep 1 : Str), ¬ c.isWhitespace :=
  insert_keys_indexed 2 2 1 (fun _ _ => ['0']) (fun _ _ => ['0']) (by decide)

/-- Concrete environment for claim C10. -/
def envC10 : Env :=
  { preflight_ok := true, ret1 := 0, stderr1 := [], insert_time := 2,
    ret2 := 0, stderr2 := [], total_time := 5 }

/-- C10: the query count 100 and the neighbor count 10 are literals, not
configuration: for every configuration, the query list has exactly 100
entries, every search line ends with the suffix `--k_top 10` (and its
newline), and the summary's search average and throughput divide by the same
constant 100. -/
theorem fixed_query_constants (N D : ℕ) (sample qsample : ℕ → ℕ → Str)
    (env : Env) (hp : env.preflight_ok = true) (h1 : env.ret1 = 0)
    (h2 : env.ret2 = 0) :
    (mkQueries D qsample).length = 100 ∧
    (∀ q : List Str, "--k_top 10\n".data <:+ searchLine q) ∧
    ∃ s : Summary, (runMain N D sample qsample env).summary = some s ∧
      s.search_avg_ms = s.search_total / 100 * 1000 ∧
      s.search_throughput = 100 / s.search_total := by
  refine ⟨by simp [mkQueries], ?_, ?_⟩
  · intro q
    refine ⟨"search ".data ++ format_vector q ++ [' '], ?_⟩
    unfold searchLine
    rw [List.append_assoc ("search ".data ++ format_vector q)]
    rfl
  · unfold runMain
    rw [hp, h1, h2]
    exact ⟨_, rfl, rfl, rfl⟩

/-- Witness for C10 at a concrete configuration and environment. -/
theorem fixed_query_constants_witness :
    (mkQueries 2 (fun _ _ => ['0'])).length = 100 ∧
    "--k_top 10\n".data <:+ searchLine [['0']] ∧
    ∃ s : Summary,
      (runMain 3 2 (fun _ _ => ['0']) (fun _ _ => ['0']) envC10).summary
          = some s ∧
      s.search_avg_ms = s.search_total / 100 * 1000 ∧
      s.search_throughput = 100 / s.search_total := by
  obtain ⟨hlen, hsuf, hsum⟩ :=
    fixed_query_constants 3 2 (fun _ _ => ['0']) (fun _ _ => ['0']) envC10
      rfl rfl rfl
  exact ⟨hlen, hsuf [['0']], hsum⟩

theorem intercalate_cons₂ (a b : Str) (l : List Str) :
    [' '].intercalate (a :: b :: l) = a ++ [' '] ++ [' '].intercalate (b :: l) := by
  simp [List.intercalate]

/-- C7: for every whitespace-free key and every vector with whitespace-free
rendered components, the reference space-separated parser recovers from the
encoded `insert` line the same key and the same component strings byte for
byte (hence, fed to the same string-to-float conversion, the same binary
component values). -/
theorem insert_line_roundtrip (key : Str) (comps : List Str)
    (hkey : ∀ c ∈ key, ¬ c.isWhitespace)
    (hcomps : comps ≠ [])
    (hc : ∀ v ∈ comps, ∀ c ∈ v, ¬ c.isWhitespace) :
    parse_insert (insertLine (key, comps)) = some (key, comps) := by
  obtain ⟨c, cs, rfl⟩ : ∃ c cs, comps = c :: cs := by
    cases comps with
    | nil => exact absurd rfl hcomps
    | cons c cs => exact ⟨c, cs, rfl⟩
  have hX : [' '].intercalate ("insert".data :: key :: c :: cs)
      = "insert ".data ++ key ++ [' '] ++ format_vector (c :: cs) := by
    rw [intercalate_cons₂, intercalate_cons₂]
    simp only [format_vector, List.append_assoc]
    rfl
  have hsplit :
      (("insert ".data ++ key ++ [' '] ++ format_vector (c :: cs)) : Str).splitOn ' '
        = "insert".data :: key :: c :: cs := by
    rw [← hX]
    apply List.splitOn_intercalate
    · intro l hl
      rcases List.mem_cons.mp hl with rfl | hl
      · decide
      rcases List.mem_cons.mp hl with rfl | hl
      · intro hsp
        exact hkey ' ' hsp (by decide)
      · intro hsp
        exact hc l hl ' ' hsp (by decide)
    · exact List.cons_ne_nil _ _
  unfold parse_insert insertLine
  simp only [List.getLast?_concat, List.dropLast_concat, if_pos]
  rw [hsplit]
  simp

/-- Witness for C7 at the key `k1` and the component strings `1.5`, `-2`. -/
theorem insert_line_roundtrip_witness :
    parse_insert (insertLine (['k', '1'], [['1', '.', '5'], ['-', '2']]))
      = some (['k', '1'], [['1', '.', '5'], ['-', '2']]) :=
  insert_line_roundtrip ['k', '1'] [['1', '.', '5'], ['-', '2']]
    (by decide) (by decide) (by decide)

end KVDB
